import Mathlib

/-!
Shallow embedding of the caching module (`cache.py`) of the Protocol
Education CI system.

Modelling conventions:
* Time is an integer number of hours (`ℤ`); `datetime.now()` becomes an
  explicit `now : ℤ` argument to every operation, `timedelta(hours=h)` is
  `h`, and `timedelta(days=7)` is `weekHours = 7 * 24`.
* The SQLite table `school_cache` is a `List SchoolRow`, the table
  `verification_cache` is a `List VerificationRow`; a `SELECT ... WHERE p`
  returning one row is `List.find?`, `UPDATE ... WHERE p` is `List.map`
  guarded by `p`, `DELETE ... WHERE p` is `List.filter` by `¬ p`, and
  `INSERT OR REPLACE` removes the rows that share the PRIMARY KEY of the
  inserted row and conses the new row.  Note that in the source schema the
  PRIMARY KEY of `verification_cache` is the single column `identifier`.
* Payloads (`json.dumps(data)` / `json.loads`) are kept as their opaque
  serialized form, a `String`; the JSON round trip is the identity on it.
* `hashlib.sha256` over `f"{school_name.lower()}:{data_type}"` is modelled
  as the (injective) identity on the hashed content string; Python
  `str.lower()` is `String.toLower`.
* The `try/except` wrapper around each SQLite transaction is modelled by an
  input `err : Option String`: `some e` means the backing store raises an
  exception with message `e` on this operation (the `with` block then rolls
  the transaction back), `none` means the store works.
* The `ENABLE_CACHE` configuration flag is the `enabled` field of the
  cache; `CACHE_TTL_HOURS` (from `config.py`, resolved by `set` when its
  `ttl_hours` argument is `None`) is supplied by the caller, so `set` takes
  the resolved `ttl_hours : ℤ` directly.
-/

namespace ProtocolCache

/-- Python `timedelta(days=7)` in hours: the fixed freshness window of the
verification cache. -/
def weekHours : ℤ := 7 * 24

/-- A row of the `school_cache` table (general cache). `hit_count` is a
natural number: the schema default is 0 and the code only ever copies or
increments it. -/
structure SchoolRow where
  cache_key : String
  school_name : String
  data_type : String
  data : String
  created_at : ℤ
  expires_at : ℤ
  hit_count : ℕ
  source_urls : Option (List String)
deriving Repr, DecidableEq

/-- A row of the `verification_cache` table. In the source schema the
PRIMARY KEY is `identifier` alone; `identifier_type` is an ordinary
column. -/
structure VerificationRow where
  identifier : String
  identifier_type : String
  is_valid : Bool
  confidence_score : ℚ
  verified_at : ℤ
  details : Option String
deriving Repr, DecidableEq

/-- The cache object: the `ENABLE_CACHE` flag and the two tables of the
SQLite database. -/
structure IntelligenceCache where
  enabled : Bool
  school_cache : List SchoolRow
  verification_cache : List VerificationRow
deriving Repr, DecidableEq

/-- Python `str.lower()` (on ASCII letters): lowercase every character.
Extensionally this is `String.toLower`, written via the character list so
that it evaluates by kernel reduction. -/
def lowerStr (s : String) : String :=
  ⟨s.data.map Char.toLower⟩

/-- Embeds `IntelligenceCache._generate_key`: sha256 of
`f"{school_name.lower()}:{data_type}"`, with the digest modelled as the
identity on the hashed content. -/
def generate_key (school_name data_type : String) : String :=
  lowerStr school_name ++ ":" ++ data_type

/-- The dictionary returned by a successful `IntelligenceCache.get`. -/
structure GetResult where
  data : String
  source_urls : List String
  cached : Bool
  expires_at : ℤ
deriving Repr, DecidableEq

/-- First row of `school_cache` whose `cache_key` equals `key`
(`SELECT ... WHERE cache_key = ?`). -/
def findRow (rows : List SchoolRow) (key : String) : Option SchoolRow :=
  rows.find? (fun r => decide (r.cache_key = key))

/-- Embeds `IntelligenceCache.get`: look up a live (non-expired) row by
fingerprint; on a hit, increment its `hit_count` and return the payload,
source URLs and expiry tagged `cached = true`.  Returns the updated cache
together with the result (`None` becomes `Option.none`). -/
def get (c : IntelligenceCache) (err : Option String) (now : ℤ)
    (school_name data_type : String) : IntelligenceCache × Option GetResult :=
  if !c.enabled then (c, none)
  else
    let cache_key := generate_key school_name data_type
    match err with
    | some _ => (c, none)
    | none =>
      match c.school_cache.find?
          (fun r => decide (r.cache_key = cache_key ∧ now < r.expires_at)) with
      | some row =>
        ({ c with school_cache := c.school_cache.map (fun r =>
            if r.cache_key = cache_key then
              { r with hit_count := r.hit_count + 1 }
            else r) },
         some { data := row.data,
                source_urls := row.source_urls.getD [],
                cached := true,
                expires_at := row.expires_at })
      | none => (c, none)

/-- Embeds `json.dumps(source_urls) if source_urls else None`: Python truthiness
collapses both `None` and the empty list to a stored NULL. -/
def normUrls (source_urls : Option (List String)) : Option (List String) :=
  match source_urls with
  | some l => if l.isEmpty then none else some l
  | none => none

/-- Embeds `IntelligenceCache.set`: `INSERT OR REPLACE` keyed by `cache_key`,
preserving the prior row's `hit_count` via
`COALESCE((SELECT hit_count ... WHERE cache_key = ?), 0)` and setting
`expires_at = now + ttl_hours`. -/
def set (c : IntelligenceCache) (err : Option String) (now : ℤ)
    (school_name data_type data : String)
    (source_urls : Option (List String)) (ttl_hours : ℤ) : IntelligenceCache :=
  if !c.enabled then c
  else
    let cache_key := generate_key school_name data_type
    let expires_at := now + ttl_hours
    match err with
    | some _ => c
    | none =>
      let row : SchoolRow :=
        { cache_key := cache_key
          school_name := school_name
          data_type := data_type
          data := data
          created_at := now
          expires_at := expires_at
          hit_count := ((findRow c.school_cache cache_key).map
            (fun r => r.hit_count)).getD 0
          source_urls := normUrls source_urls }
      { c with school_cache :=
          row :: c.school_cache.filter (fun r => decide (¬ r.cache_key = cache_key)) }

/-- The dictionary returned by a successful
`IntelligenceCache.get_verification`. -/
structure VerificationResult where
  is_valid : Bool
  confidence_score : ℚ
  details : Option String
  verified_at : ℤ
  cached : Bool
deriving Repr, DecidableEq

/-- Embeds `IntelligenceCache.get_verification`: return the row matching both
`identifier` and `identifier_type` whose `verified_at` is strictly newer
than `now - 7 days`.  Read-only: the cache state is unchanged. -/
def get_verification (c : IntelligenceCache) (err : Option String) (now : ℤ)
    (identifier identifier_type : String) : Option VerificationResult :=
  if !c.enabled then none
  else
    match err with
    | some _ => none
    | none =>
      let week_ago := now - weekHours
      match c.verification_cache.find? (fun r => decide
          (r.identifier = identifier ∧ r.identifier_type = identifier_type ∧
           week_ago < r.verified_at)) with
      | some row =>
        some { is_valid := row.is_valid
               confidence_score := row.confidence_score
               details := row.details
               verified_at := row.verified_at
               cached := true }
      | none => none

/-- Embeds `IntelligenceCache.set_verification`: `INSERT OR REPLACE` into
`verification_cache`.  The table's PRIMARY KEY is `identifier` alone, so
the replace removes every row with the same `identifier`, whatever its
`identifier_type`. -/
def set_verification (c : IntelligenceCache) (err : Option String) (now : ℤ)
    (identifier identifier_type : String) (is_valid : Bool)
    (confidence_score : ℚ) (details : Option String) : IntelligenceCache :=
  if !c.enabled then c
  else
    match err with
    | some _ => c
    | none =>
      let row : VerificationRow :=
        { identifier := identifier
          identifier_type := identifier_type
          is_valid := is_valid
          confidence_score := confidence_score
          verified_at := now
          details := details }
      { c with verification_cache :=
          row :: (c.verification_cache.filter
            (fun r => decide (¬ r.identifier = identifier))) }

/-- Embeds `IntelligenceCache.clear_expired`: delete the general rows with
`expires_at < now` and the verification rows with
`verified_at < now - 7 days`. -/
def clear_expired (c : IntelligenceCache) (err : Option String) (now : ℤ) :
    IntelligenceCache :=
  if !c.enabled then c
  else
    match err with
    | some _ => c
    | none =>
      { c with
        school_cache :=
          c.school_cache.filter (fun r => decide (¬ r.expires_at < now))
        verification_cache :=
          (c.verification_cache.filter
            (fun r => decide (¬ r.verified_at < now - weekHours))) }

/-- Python `round(x, d)`: round half to even at the integer scale. -/
def roundHalfEvenInt (q : ℚ) : ℤ :=
  let f : ℤ := q.floor
  let r : ℚ := q - (f : ℚ)
  if r < 1 / 2 then f
  else if 1 / 2 < r then f + 1
  else if f % 2 = 0 then f else f + 1

/-- Python `round(x, 2)` on the exact rational value. -/
def round2 (q : ℚ) : ℚ := ((roundHalfEvenInt (q * 100) : ℚ)) / 100

/-- Python `round(x, 3)` on the exact rational value. -/
def round3 (q : ℚ) : ℚ := ((roundHalfEvenInt (q * 1000) : ℚ)) / 1000

/-- Python `total_hits or 1` where `total_hits` is `SUM(hit_count)`
(NULL on an empty table, and falsy when 0). -/
def pyOrOne (x : Option ℕ) : ℕ :=
  match x with
  | none => 1
  | some n => if n = 0 then 1 else n

/-- The statistics dictionary returned by `IntelligenceCache.get_stats`
on success (its `enabled` field is `True`). -/
structure Stats where
  total_entries : ℕ
  active_entries : ℕ
  expired_entries : ℕ
  total_hits : ℕ
  average_hits : ℚ
  max_hits : ℕ
  verification_entries : ℕ
  cache_size_mb : ℚ
  hit_rate : ℚ
deriving Repr, DecidableEq

/-- The three shapes of dictionary `IntelligenceCache.get_stats` can
return: `{'enabled': False}`, a full statistics dictionary (with
`enabled = True`), or `{'enabled': True, 'error': str(e)}`. -/
inductive StatsResult where
  | disabled : StatsResult
  | stats : Stats → StatsResult
  | errorResult : String → StatsResult
deriving Repr, DecidableEq

/-- Embeds `IntelligenceCache.get_stats`.  Here `cache_size_bytes` models the result
of the `pragma_page_count() * pragma_page_size()` query, which is not a
function of the table contents. -/
def get_stats (c : IntelligenceCache) (err : Option String) (now : ℤ)
    (cache_size_bytes : ℚ) : StatsResult :=
  if !c.enabled then .disabled
  else
    match err with
    | some e => .errorResult e
    | none =>
      let rows := c.school_cache
      let total_entries := rows.length
      let active_entries :=
        (rows.filter (fun r => decide (now < r.expires_at))).length
      let hits := rows.map (fun r => r.hit_count)
      let total_hits_opt : Option ℕ :=
        match rows with | [] => none | _ :: _ => some hits.sum
      let avg_hits_opt : Option ℚ :=
        match rows with
        | [] => none
        | _ :: _ => some ((hits.sum : ℚ) / (total_entries : ℚ))
      let max_hits_opt : Option ℕ :=
        match rows with | [] => none | _ :: _ => some (hits.foldr max 0)
      .stats
        { total_entries := total_entries
          active_entries := active_entries
          expired_entries := total_entries - active_entries
          total_hits := total_hits_opt.getD 0
          average_hits := round2 (avg_hits_opt.getD 0)
          max_hits := max_hits_opt.getD 0
          verification_entries := c.verification_cache.length
          cache_size_mb := round2 (cache_size_bytes / (1024 * 1024))
          hit_rate := round3 (((total_hits_opt.getD 0 : ℕ) : ℚ) /
            ((total_entries : ℚ) + ((pyOrOne total_hits_opt : ℕ) : ℚ))) }

/-! Helper lemmas shared by the claim theorems. -/

lemma enabled_set (c : IntelligenceCache) (err : Option String) (now : ℤ)
    (n dt d : String) (su : Option (List String)) (h : ℤ) :
    (set c err now n dt d su h).enabled = c.enabled := by
  cases err <;> cases hc : c.enabled <;> simp [set, hc]

lemma enabled_get (c : IntelligenceCache) (err : Option String) (now : ℤ)
    (n dt : String) :
    (get c err now n dt).1.enabled = c.enabled := by
  cases err <;> cases hc : c.enabled <;> simp [get, hc]
  split
  · rfl
  · exact hc

/-- If the first row with a given key is unexpired, it is also the first
row satisfying the conjunction of the key test with the expiry test. -/
lemma find?_key_and (l : List SchoolRow) (k : String) (now : ℤ) (row : SchoolRow)
    (hf : l.find? (fun r => decide (r.cache_key = k)) = some row)
    (hexp : now < row.expires_at) :
    l.find? (fun r => decide (r.cache_key = k ∧ now < r.expires_at)) = some row := by
  induction l with
  | nil => simp at hf
  | cons a t ih =>
    by_cases hk : a.cache_key = k
    · have ha : a = row := by
        rw [List.find?_cons_of_pos _ (by simp [hk])] at hf
        exact Option.some.inj hf
      subst ha
      exact List.find?_cons_of_pos _ (by simp [hk, hexp])
    · rw [List.find?_cons_of_neg _ (by simp [hk])] at hf
      rw [List.find?_cons_of_neg _ (by simp [hk])]
      exact ih hf

/-- The hit-count increment preserves `cache_key`, so `findRow` commutes
with it. -/
lemma findRow_map_inc (l : List SchoolRow) (k k' : String) :
    findRow (l.map (fun r => if r.cache_key = k then
        { r with hit_count := r.hit_count + 1 } else r)) k' =
      (findRow l k').map (fun r => if r.cache_key = k then
        { r with hit_count := r.hit_count + 1 } else r) := by
  unfold findRow
  induction l with
  | nil => rfl
  | cons a t ih =>
    have hkey : ((if a.cache_key = k then
        { a with hit_count := a.hit_count + 1 } else a) : SchoolRow).cache_key =
        a.cache_key := by
      split <;> rfl
    by_cases hk : a.cache_key = k'
    · rw [List.map_cons,
        List.find?_cons_of_pos _ (by simp only [decide_eq_true_eq]; rw [hkey]; exact hk),
        List.find?_cons_of_pos _ (by simp [hk])]
      rfl
    · rw [List.map_cons,
        List.find?_cons_of_neg _ (by simp only [decide_eq_true_eq]; rw [hkey]; exact hk),
        List.find?_cons_of_neg _ (by simp [hk])]
      exact ih

/-- After a `set`, the first row under the written key is the freshly
written row, whose `hit_count` is the prior row's count (or 0). -/
lemma findRow_after_set (c : IntelligenceCache) (now : ℤ) (n dt d : String)
    (su : Option (List String)) (h : ℤ) (hen : c.enabled = true) :
    findRow (set c none now n dt d su h).school_cache (generate_key n dt) =
      some { cache_key := generate_key n dt, school_name := n, data_type := dt,
             data := d, created_at := now, expires_at := now + h,
             hit_count := ((findRow c.school_cache (generate_key n dt)).map
               (fun r => r.hit_count)).getD 0,
             source_urls := normUrls su } := by
  unfold set findRow
  simp only [hen, Bool.not_true, Bool.false_eq_true, if_false]
  exact List.find?_cons_of_pos _ (by simp)

/-- A successful `get`: the exact state update and returned dictionary. -/
lemma get_hit (c : IntelligenceCache) (now : ℤ) (n dt : String) (row : SchoolRow)
    (hen : c.enabled = true)
    (hf : findRow c.school_cache (generate_key n dt) = some row)
    (hexp : now < row.expires_at) :
    get c none now n dt =
      ({ c with school_cache := c.school_cache.map (fun r =>
           if r.cache_key = generate_key n dt then
             { r with hit_count := r.hit_count + 1 } else r) },
       some { data := row.data, source_urls := row.source_urls.getD [],
              cached := true, expires_at := row.expires_at }) := by
  have hfind := find?_key_and c.school_cache (generate_key n dt) now row hf hexp
  unfold get
  simp only [hen, Bool.not_true, Bool.false_eq_true, if_false]
  rw [hfind]

/-- A successful `get` leaves the found row in place with `hit_count`
incremented by exactly 1. -/
lemma findRow_get_hit (c : IntelligenceCache) (now : ℤ) (n dt : String)
    (row : SchoolRow) (hen : c.enabled = true)
    (hf : findRow c.school_cache (generate_key n dt) = some row)
    (hexp : now < row.expires_at) :
    findRow (get c none now n dt).1.school_cache (generate_key n dt) =
      some { row with hit_count := row.hit_count + 1 } := by
  rw [get_hit c now n dt row hen hf hexp]
  have hkey : row.cache_key = generate_key n dt := by
    have hp := List.find?_some hf
    simpa using hp
  rw [findRow_map_inc, hf]
  simp [hkey]

/-- Running `get` after `set` under the same fingerprint, before expiry. -/
lemma get_after_set_hit (c : IntelligenceCache) (now t : ℤ) (n dt d : String)
    (su : Option (List String)) (h : ℤ) (hen : c.enabled = true)
    (ht : t < now + h) :
    (get (set c none now n dt d su h) none t n dt).2 =
      some { data := d, source_urls := (normUrls su).getD [], cached := true,
             expires_at := now + h } := by
  have hen2 : (set c none now n dt d su h).enabled = true := by
    rw [enabled_set, hen]
  rw [get_hit (set c none now n dt d su h) t n dt _ hen2
    (findRow_after_set c now n dt d su h hen) ht]

/-- Running `get` after `set` under the same fingerprint, at or past expiry. -/
lemma get_after_set_miss (c : IntelligenceCache) (now t : ℤ) (n dt d : String)
    (su : Option (List String)) (h : ℤ) (hen : c.enabled = true)
    (ht : now + h ≤ t) :
    (get (set c none now n dt d su h) none t n dt).2 = none := by
  have hen2 : (set c none now n dt d su h).enabled = true := by
    rw [enabled_set, hen]
  unfold get
  simp only [hen2, Bool.not_true, Bool.false_eq_true, if_false]
  have hnone : (set c none now n dt d su h).school_cache.find?
      (fun r => decide (r.cache_key = generate_key n dt ∧ t < r.expires_at)) =
      none := by
    rw [List.find?_eq_none]
    intro x hx
    unfold set at hx
    simp only [hen, Bool.not_true, Bool.false_eq_true, if_false] at hx
    rcases List.mem_cons.mp hx with hx | hx
    · subst hx
      simp only [decide_eq_true_eq, not_and, not_lt]
      intro _
      exact ht
    · have hne := (List.mem_filter.mp hx).2
      simp only [decide_eq_true_eq] at hne
      simp only [decide_eq_true_eq, not_and, not_lt]
      intro hk
      exact absurd hk hne
  rw [hnone]

lemma normUrls_getD (urls : List String) : (normUrls (some urls)).getD [] = urls := by
  cases urls <;> simp [normUrls]

lemma roundHalfEvenInt_zero : roundHalfEvenInt 0 = 0 := by
  unfold roundHalfEvenInt
  have hf : (0 : ℚ).floor = 0 := rfl
  rw [hf]
  norm_num

lemma round2_zero : round2 0 = 0 := by
  unfold round2
  rw [zero_mul, roundHalfEvenInt_zero]
  norm_num

lemma round3_zero : round3 0 = 0 := by
  unfold round3
  rw [zero_mul, roundHalfEvenInt_zero]
  norm_num

lemma pyOrOne_some (m : ℕ) : pyOrOne (some m) = max m 1 := by
  cases m with
  | zero => decide
  | succ k =>
    have hmax : max (k + 1) 1 = k + 1 :=
      Nat.max_eq_left (Nat.succ_le_succ (Nat.zero_le k))
    simp [pyOrOne, hmax]

/-! Claim theorems. -/

/-- C3: the claim states that verification entries are keyed by the
composite pair (identifier, identifierType), so that after
`setVerification(i, t1, ...)` and `setVerification(i, t2, ...)` with
`t1 ≠ t2` both entries stay retrievable.  On the code this fails: the
`verification_cache` schema makes `identifier` alone the PRIMARY KEY, so
the second `INSERT OR REPLACE` deletes the first entry and a fresh
`getVerification(i, t1)` returns absent while `getVerification(i, t2)`
succeeds. -/
theorem C3_verification_key_not_composite :
    get_verification
      (set_verification
        (set_verification ⟨true, [], []⟩ none 0 "07700900123" "phone" true 1 none)
        none 0 "07700900123" "email" true 1 none)
      none 0 "07700900123" "phone" = none ∧
    (get_verification
      (set_verification
        (set_verification ⟨true, [], []⟩ none 0 "07700900123" "phone" true 1 none)
        none 0 "07700900123" "email" true 1 none)
      none 0 "07700900123" "email").isSome = true := by
  decide

/-- C4: `getVerification` returns an entry only if its `verifiedAt` is
strictly within the last 7 days of the current time, regardless of the
entry's `isValid` value. -/
theorem C4_verification_freshness (c : IntelligenceCache) (now : ℤ)
    (i ty : String) (res : VerificationResult)
    (h : get_verification c none now i ty = some res) :
    now - res.verified_at < weekHours := by
  unfold get_verification at h
  by_cases hen : c.enabled
  · simp only [hen, Bool.not_true, Bool.false_eq_true, if_false] at h
    rcases hfind : c.verification_cache.find? (fun r => decide
        (r.identifier = i ∧ r.identifier_type = ty ∧
         now - weekHours < r.verified_at)) with _ | row
    · rw [hfind] at h
      simp at h
    · rw [hfind] at h
      have hp := List.find?_some hfind
      simp only [decide_eq_true_eq] at hp
      simp only [Option.some.injEq] at h
      subst h
      dsimp only
      omega
  · simp only [Bool.not_eq_true] at hen
    simp [hen] at h

/-- C4 witness: a concrete one-day-old entry is returned and is within the
7-day window. -/
theorem C4_verification_freshness_witness :
    (0 : ℤ) - (-1 : ℤ) < weekHours :=
  C4_verification_freshness
    ⟨true, [], [⟨"a", "b", true, 1, -1, none⟩]⟩ 0 "a" "b"
    ⟨true, 1, none, -1, true⟩ (by decide)

/-- C5: when the cache is disabled, `get` returns absent with the state
unchanged, `set` leaves the backing store completely unchanged, and any
`set` followed by any `get` returns absent. -/
theorem C5_disabled_no_persistence (c : IntelligenceCache)
    (err errg : Option String) (now t h : ℤ) (n dt d n2 dt2 : String)
    (su : Option (List String)) (hdis : c.enabled = false) :
    get c err now n dt = (c, none) ∧
    set c err now n dt d su h = c ∧
    (get (set c err now n dt d su h) errg t n2 dt2).2 = none := by
  have hset : set c err now n dt d su h = c := by
    cases err <;> simp [set, hdis]
  have hget : ∀ (e2 : Option String) (t2 : ℤ) (m mdt : String),
      get c e2 t2 m mdt = (c, none) := by
    intro e2 t2 m mdt
    cases e2 <;> simp [get, hdis]
  refine ⟨hget err now n dt, hset, ?_⟩
  rw [hset, hget errg t n2 dt2]

/-- C5 witness at a concrete disabled cache. -/
theorem C5_disabled_no_persistence_witness :
    get ⟨false, [], []⟩ none 0 "a" "b" = (⟨false, [], []⟩, none) ∧
    set ⟨false, [], []⟩ none 0 "a" "b" "d" none 1 = ⟨false, [], []⟩ ∧
    (get (set ⟨false, [], []⟩ none 0 "a" "b" "d" none 1) none 1 "a" "b").2 = none :=
  C5_disabled_no_persistence ⟨false, [], []⟩ none none 0 1 1 "a" "b" "d" "a" "b"
    none rfl

/-- C7: a storage-layer error on any operation is caught inside the
operation: `get` and `getVerification` return absent with the state
unchanged, `set`, `setVerification` and `clearExpired` are silent no-ops,
and `getStats` returns the `enabled = True` dictionary carrying the error
message instead of raising. -/
theorem C7_errors_never_propagate (c : IntelligenceCache) (e : String)
    (now h : ℤ) (n dt d i ty : String) (su : Option (List String))
    (iv : Bool) (cs : ℚ) (det : Option String) (pb : ℚ)
    (hen : c.enabled = true) :
    get c (some e) now n dt = (c, none) ∧
    set c (some e) now n dt d su h = c ∧
    get_verification c (some e) now i ty = none ∧
    set_verification c (some e) now i ty iv cs det = c ∧
    clear_expired c (some e) now = c ∧
    get_stats c (some e) now pb = StatsResult.errorResult e := by
  simp [get, set, get_verification, set_verification, clear_expired, get_stats,
    hen]

/-- C7 witness at a concrete enabled cache and error message. -/
theorem C7_errors_never_propagate_witness :
    get ⟨true, [], []⟩ (some "disk full") 0 "a" "b" = (⟨true, [], []⟩, none) ∧
    set ⟨true, [], []⟩ (some "disk full") 0 "a" "b" "d" none 1 = ⟨true, [], []⟩ ∧
    get_verification ⟨true, [], []⟩ (some "disk full") 0 "i" "t" = none ∧
    set_verification ⟨true, [], []⟩ (some "disk full") 0 "i" "t" true 1 none =
      ⟨true, [], []⟩ ∧
    clear_expired ⟨true, [], []⟩ (some "disk full") 0 = ⟨true, [], []⟩ ∧
    get_stats ⟨true, [], []⟩ (some "disk full") 0 0 =
      StatsResult.errorResult "disk full" :=
  C7_errors_never_propagate ⟨true, [], []⟩ "disk full" 0 1 "a" "b" "d" "i" "t"
    none true 1 none 0 rfl

/-- C8: fingerprinting is case-insensitive on the entity name: two names
with the same lowercasing produce the same cache key, so `get` behaves
identically on them. -/
theorem C8_case_insensitive_entity (n1 n2 dt : String) (c : IntelligenceCache)
    (err : Option String) (now : ℤ) (hcase : lowerStr n1 = lowerStr n2) :
    generate_key n1 dt = generate_key n2 dt ∧
    get c err now n1 dt = get c err now n2 dt := by
  have hk : generate_key n1 dt = generate_key n2 dt := by
    unfold generate_key
    rw [hcase]
  refine ⟨hk, ?_⟩
  unfold get
  rw [hk]

/-- C8 witness on the spec's own example pair of names. -/
theorem C8_case_insensitive_entity_witness :
    generate_key "Oak School" "financial" = generate_key "oak school" "financial" ∧
    get ⟨true, [], []⟩ none 0 "Oak School" "financial" =
      get ⟨true, [], []⟩ none 0 "oak school" "financial" :=
  C8_case_insensitive_entity "Oak School" "oak school" "financial"
    ⟨true, [], []⟩ none 0 (by decide)

/-- C10: fingerprinting is case-sensitive on the data kind: only the
entity name is lowercased before hashing, so `set` under kind "Financial"
is invisible to a fresh (unexpired) `get` under kind "financial". -/
theorem C10_data_kind_case_sensitive :
    generate_key "Oak School" "Financial" ≠ generate_key "Oak School" "financial" ∧
    (get (set ⟨true, [], []⟩ none 0 "Oak School" "Financial" "payload1" none 1)
        none 0 "Oak School" "financial").2 = none := by
  decide

/-- C1: each successful `get` increments the stored `hit_count` of the
key's row by exactly 1; a `set` whose key matches an existing row keeps
that row's `hit_count`; a `set` whose key matches no row inserts with
`hit_count = 0`; hence `set(k,v1); get(k); set(k,v2); get(k)` starting
from a state without the key leaves `hit_count = 2`. -/
theorem C1_hit_count_semantics :
    (∀ (c : IntelligenceCache) (now : ℤ) (n dt : String) (row : SchoolRow),
        c.enabled = true →
        findRow c.school_cache (generate_key n dt) = some row →
        now < row.expires_at →
        (get c none now n dt).2.isSome = true ∧
        findRow (get c none now n dt).1.school_cache (generate_key n dt) =
          some { row with hit_count := row.hit_count + 1 }) ∧
    (∀ (c : IntelligenceCache) (now : ℤ) (n dt d : String)
        (su : Option (List String)) (h : ℤ) (row : SchoolRow),
        c.enabled = true →
        findRow c.school_cache (generate_key n dt) = some row →
        (findRow (set c none now n dt d su h).school_cache
            (generate_key n dt)).map (fun r => r.hit_count) =
          some row.hit_count) ∧
    (∀ (c : IntelligenceCache) (now : ℤ) (n dt d : String)
        (su : Option (List String)) (h : ℤ),
        c.enabled = true →
        findRow c.school_cache (generate_key n dt) = none →
        (findRow (set c none now n dt d su h).school_cache
            (generate_key n dt)).map (fun r => r.hit_count) = some 0) ∧
    (∀ (c : IntelligenceCache) (t0 t1 t2 t3 h1 h2 : ℤ) (n dt d1 d2 : String)
        (su1 su2 : Option (List String)),
        c.enabled = true →
        findRow c.school_cache (generate_key n dt) = none →
        t1 < t0 + h1 → t3 < t2 + h2 →
        (findRow (get (set (get (set c none t0 n dt d1 su1 h1) none t1 n dt).1
              none t2 n dt d2 su2 h2) none t3 n dt).1.school_cache
            (generate_key n dt)).map (fun r => r.hit_count) = some 2) := by
  refine ⟨?_, ?_, ?_, ?_⟩
  · intro c now n dt row hen hf hexp
    constructor
    · rw [get_hit c now n dt row hen hf hexp]
      rfl
    · exact findRow_get_hit c now n dt row hen hf hexp
  · intro c now n dt d su h row hen hf
    rw [findRow_after_set c now n dt d su h hen]
    simp [hf]
  · intro c now n dt d su h hen hf
    rw [findRow_after_set c now n dt d su h hen]
    simp [hf]
  · intro c t0 t1 t2 t3 h1 h2 n dt d1 d2 su1 su2 hen hfresh ht1 ht3
    have hen1 : (set c none t0 n dt d1 su1 h1).enabled = true := by
      rw [enabled_set]
      exact hen
    have h1f := findRow_after_set c t0 n dt d1 su1 h1 hen
    rw [hfresh] at h1f
    simp only [Option.map_none', Option.getD_none] at h1f
    have h2f := findRow_get_hit (set c none t0 n dt d1 su1 h1) t1 n dt _ hen1
      h1f ht1
    have hen2 : (get (set c none t0 n dt d1 su1 h1) none t1 n dt).1.enabled =
        true := by
      rw [enabled_get]
      exact hen1
    have h3f := findRow_after_set
      (get (set c none t0 n dt d1 su1 h1) none t1 n dt).1 t2 n dt d2 su2 h2 hen2
    rw [h2f] at h3f
    simp only [Option.map_some', Option.getD_some] at h3f
    have hen3 : (set (get (set c none t0 n dt d1 su1 h1) none t1 n dt).1 none t2
        n dt d2 su2 h2).enabled = true := by
      rw [enabled_set]
      exact hen2
    have h4f := findRow_get_hit _ t3 n dt _ hen3 h3f ht3
    rw [h4f]
    rfl

/-- C1 witness: the spec's own sequence on a concrete fresh key, ending
with `hit_count = 2`. -/
theorem C1_hit_count_semantics_witness :
    (findRow (get (set (get (set ⟨true, [], []⟩ none 0 "k" "d" "v1" none 2)
          none 0 "k" "d").1 none 1 "k" "d" "v2" none 2) none 1 "k" "d").1.school_cache
        (generate_key "k" "d")).map (fun r => r.hit_count) = some 2 :=
  C1_hit_count_semantics.2.2.2 ⟨true, [], []⟩ 0 0 1 1 2 2 "k" "d" "v1" "v2"
    none none rfl rfl (by decide) (by decide)

/-- C2: a `get` after a `set` with a positive TTL and before the stored
expiry returns the same payload and the same source URLs tagged
`cached = true`; a `get` at or after the expiry returns absent. -/
theorem C2_ttl_roundtrip (c : IntelligenceCache) (now t h : ℤ)
    (n dt d : String) (urls : List String)
    (hen : c.enabled = true) (hpos : 0 < h) :
    (t < now + h →
      (get (set c none now n dt d (some urls) h) none t n dt).2 =
        some { data := d, source_urls := urls, cached := true,
               expires_at := now + h }) ∧
    (now + h ≤ t →
      (get (set c none now n dt d (some urls) h) none t n dt).2 = none) := by
  constructor
  · intro ht
    rw [get_after_set_hit c now t n dt d (some urls) h hen ht, normUrls_getD]
  · intro ht
    exact get_after_set_miss c now t n dt d (some urls) h hen ht

/-- C2 witness: a concrete set-then-get inside the TTL window returns the
stored payload and URLs. -/
theorem C2_ttl_roundtrip_witness :
    (get (set ⟨true, [], []⟩ none 0 "Elm Primary" "ofsted" "rating Good"
        (some ["u"]) 1) none 0 "Elm Primary" "ofsted").2 =
      some { data := "rating Good", source_urls := ["u"], cached := true,
             expires_at := 0 + 1 } :=
  (C2_ttl_roundtrip ⟨true, [], []⟩ 0 0 1 "Elm Primary" "ofsted" "rating Good"
    ["u"] rfl (by decide)).1 (by decide)

/-- C6: `clearExpired` keeps exactly the general rows with
`expires_at ≥ now` and the verification rows with
`verified_at ≥ now - 7 days`, and running it twice at the same instant
changes nothing the second time. -/
theorem C6_clear_expired_exact (c : IntelligenceCache) (now : ℤ)
    (hen : c.enabled = true) :
    (∀ r : SchoolRow, r ∈ (clear_expired c none now).school_cache ↔
        r ∈ c.school_cache ∧ ¬ r.expires_at < now) ∧
    (∀ v : VerificationRow, v ∈ (clear_expired c none now).verification_cache ↔
        v ∈ c.verification_cache ∧ ¬ v.verified_at < now - weekHours) ∧
    clear_expired (clear_expired c none now) none now =
      clear_expired c none now := by
  refine ⟨?_, ?_, ?_⟩
  · intro r
    simp [clear_expired, hen, List.mem_filter]
  · intro v
    simp [clear_expired, hen, List.mem_filter]
  · simp [clear_expired, hen, List.filter_filter, Bool.and_self]

/-- C6 witness: idempotence at a concrete mixed state. -/
theorem C6_clear_expired_exact_witness :
    clear_expired (clear_expired
        ⟨true, [⟨"ka", "a", "b", "v", -10, -3, 0, none⟩,
                ⟨"kb", "a", "b", "v", -10, 5, 1, none⟩],
               [⟨"i", "t", true, 1, -200, none⟩,
                ⟨"j", "t", true, 1, -1, none⟩]⟩ none 0) none 0 =
      clear_expired
        ⟨true, [⟨"ka", "a", "b", "v", -10, -3, 0, none⟩,
                ⟨"kb", "a", "b", "v", -10, 5, 1, none⟩],
               [⟨"i", "t", true, 1, -200, none⟩,
                ⟨"j", "t", true, 1, -1, none⟩]⟩ none 0 :=
  (C6_clear_expired_exact
    ⟨true, [⟨"ka", "a", "b", "v", -10, -3, 0, none⟩,
            ⟨"kb", "a", "b", "v", -10, 5, 1, none⟩],
           [⟨"i", "t", true, 1, -200, none⟩,
            ⟨"j", "t", true, 1, -1, none⟩]⟩ 0 rfl).2.2

/-- C9: the `hit_rate` reported by `getStats` equals
`totalHits / (totalEntries + max(totalHits, 1))` rounded to 3 decimal
places, with `totalHits` the sum of `hit_count` over all rows (0 on an
empty table) and `totalEntries` the row count; the denominator is
positive, and on an empty table the hit rate is 0. -/
theorem C9_hit_rate_formula (c : IntelligenceCache) (now : ℤ) (pb : ℚ)
    (st : Stats) (hen : c.enabled = true)
    (hstats : get_stats c none now pb = StatsResult.stats st) :
    st.hit_rate = round3
      ((((c.school_cache.map (fun r => r.hit_count)).sum : ℕ) : ℚ) /
        ((c.school_cache.length : ℚ) +
          ((max (c.school_cache.map (fun r => r.hit_count)).sum 1 : ℕ) : ℚ))) ∧
    (0 : ℚ) < (c.school_cache.length : ℚ) +
        ((max (c.school_cache.map (fun r => r.hit_count)).sum 1 : ℕ) : ℚ) ∧
    (c.school_cache = [] → st.hit_rate = 0) := by
  have hone : (1 : ℚ) ≤
      ((max (c.school_cache.map (fun r => r.hit_count)).sum 1 : ℕ) : ℚ) := by
    exact_mod_cast le_max_right (c.school_cache.map (fun r => r.hit_count)).sum 1
  have hlen : (0 : ℚ) ≤ (c.school_cache.length : ℚ) := Nat.cast_nonneg _
  refine ⟨?_, by linarith, ?_⟩
  · unfold get_stats at hstats
    simp only [hen, Bool.not_true, Bool.false_eq_true, if_false] at hstats
    rcases hrows : c.school_cache with _ | ⟨a, rows⟩
    · rw [hrows] at hstats
      simp only [StatsResult.stats.injEq] at hstats
      subst hstats
      simp [pyOrOne]
    · rw [hrows] at hstats
      simp only [StatsResult.stats.injEq] at hstats
      subst hstats
      simp [pyOrOne_some]
  · intro hnil
    unfold get_stats at hstats
    simp only [hen, Bool.not_true, Bool.false_eq_true, if_false] at hstats
    rw [hnil] at hstats
    simp only [StatsResult.stats.injEq] at hstats
    subst hstats
    dsimp only
    simp only [pyOrOne, Option.getD_none, List.length_nil, Nat.cast_zero,
      Nat.cast_ofNat, Nat.cast_one, zero_add, zero_div, round3_zero]

/-- C9 witness at a concrete empty enabled cache. -/
theorem C9_hit_rate_formula_witness :
    (⟨0, 0, 0, 0, 0, 0, 0, 0, 0⟩ : Stats).hit_rate = round3
      (((([] : List SchoolRow).map (fun r => r.hit_count)).sum : ℚ) /
        ((([] : List SchoolRow).length : ℚ) +
          ((max (([] : List SchoolRow).map (fun r => r.hit_count)).sum 1 : ℕ) : ℚ))) ∧
    (0 : ℚ) < ((([] : List SchoolRow).length : ℚ) +
          ((max (([] : List SchoolRow).map (fun r => r.hit_count)).sum 1 : ℕ) : ℚ)) ∧
    (([] : List SchoolRow) = [] → (⟨0, 0, 0, 0, 0, 0, 0, 0, 0⟩ : Stats).hit_rate = 0) :=
  C9_hit_rate_formula ⟨true, [], []⟩ 0 0 ⟨0, 0, 0, 0, 0, 0, 0, 0, 0⟩ rfl
    (by simp [get_stats, pyOrOne, round2_zero, round3_zero])

end ProtocolCache
